import Mathlib

/-!
Shallow embedding of the retrieval-augmented answer pipeline of
`rag_flow.py` (game4every1-cloud), together with proofs about it.

External collaborators (the OpenAI chat endpoint, the sentence-embedding
model plus the Weaviate vector store, the wall clock) are modelled as
oracles supplied by the caller:

* `Env.llm prompt` is the raw chat-completion round trip
  (`openai.chat.completions.create` followed by extracting
  `response.choices[0].message.content`): `some content` when the call
  succeeds, `none` when anything in that round trip raises.
* `WeaviateClient.query question k` is the embed-and-query round trip of
  `search_weaviate` (encoding the question, the near-vector query with
  certainty 0.7 and limit `k`, and extracting
  `response['data']['Get']['Game']`): `some records` on success, `none`
  when the round trip raises.

Attribute values of a Weaviate `Game` object are modelled by their string
rendering (the three integer attributes are only ever interpolated into
prompt text), and a missing attribute is `none`, matching `dict.get`.
`st.error` is pure logging and is elided.  The SQLAlchemy session is
modelled as the list of `SearchedGame` rows it holds; the
`searched_time := datetime.utcnow()` column is an external-clock value
that no code under verification reads, so it is not tracked.
-/

/-! ### Python string primitives used by the pipeline -/

/-- Python's `str.lower()` restricted to ASCII, as the pipeline's model
responses are ASCII text. -/
def pyLower (s : String) : String := ⟨s.data.map Char.toLower⟩

/-- The character list of Python's `str.strip()`: drop whitespace from both
ends. -/
def stripList (l : List Char) : List Char :=
  ((l.dropWhile Char.isWhitespace).reverse.dropWhile Char.isWhitespace).reverse

/-- Python's `str.strip()`. -/
def pyStrip (s : String) : String := ⟨stripList s.data⟩

/-- Python's substring test `pat in s`. -/
def pyIn (pat s : String) : Bool := decide (pat.data <:+: s.data)

/-! ### Data model -/

/-- One `Game` object as returned by the Weaviate query in
`search_weaviate`: every requested property, each possibly missing. -/
structure GameRecord where
  gameId : Option String
  gameName : Option String
  alternateNames : Option String
  subcategory : Option String
  level : Option String
  description : Option String
  playersMax : Option String
  ageRange : Option String
  duration : Option String
  equipmentNeeded : Option String
  objective : Option String
  skillsDeveloped : Option String
  setupTime : Option String
  place : Option String
  physicalIntensityLevel : Option String
  educationalBenefits : Option String
  category : Option String
deriving DecidableEq

/-- A row of the `searched_games` table (`models.SearchedGame`), without the
untracked `searched_time` column. -/
structure SearchedGame where
  game_id : String
  game_name : Option String
  subcategory : Option String
  level : Option String
  category : Option String
deriving DecidableEq

/-- One entry of the `answers` list built by `get_answer`. -/
structure Answer where
  game_name : String
  answer : String
  game_id : Option String
  subcategory : Option String
  level : Option String
  category : Option String
deriving DecidableEq

/-- The dictionary returned by `get_answer`: `is_related` is always
present; `message`, `answers` are present in some outcomes only. -/
structure GetAnswerResult where
  is_related : Bool
  message : Option String
  answers : Option (List Answer)
  rewritten_question : String
deriving DecidableEq

/-- The language-model oracle (see the module docstring). -/
structure Env where
  llm : String → Option String

/-- The vector-search oracle (see the module docstring). -/
structure WeaviateClient where
  query : String → Nat → Option (List GameRecord)

/-- Collaborator calls `get_answer` makes, in order, for instrumentation:
one per `preprocess_query`, `check_if_game_related` and `search_weaviate`
invocation, recording the text handed to that collaborator. -/
inductive Event where
  | rewriteCall (input : String)
  | classifyCall (input : String)
  | searchCall (question : String) (k : Nat)
deriving DecidableEq

/-- Whether an event is a `search_weaviate` invocation. -/
def Event.isSearchCall : Event → Bool
  | .searchCall _ _ => true
  | _ => false

/-- Whether an event is a `preprocess_query` invocation. -/
def Event.isRewriteCall : Event → Bool
  | .rewriteCall _ => true
  | _ => false

/-- Whether an event is a `check_if_game_related` invocation. -/
def Event.isClassifyCall : Event → Bool
  | .classifyCall _ => true
  | _ => false

/-! ### The pipeline functions of `rag_flow.py` -/

/-- The prompt of `check_if_game_related`. -/
def relatedness_prompt (question : String) : String :=
  "Determine if the following question is related to games. Answer with 'Yes' or 'No'.\n\nQuestion: \"" ++ question ++ "\""

/-- `call_gpt_4o_mini`: on success the stripped message content; every
failure inside the round trip is caught and mapped to `"No"`.  In
particular this function never raises, so the `except` branches of its
callers are unreachable. -/
def call_gpt_4o_mini (env : Env) (prompt : String) : String :=
  match env.llm prompt with
  | some content => pyStrip content
  | none => "No"

/-- `check_if_game_related`: case-insensitive substring test for `"yes"` on
the helper's response.  Its own `except` branch (returning `False`) is
unreachable because `call_gpt_4o_mini` never raises. -/
def check_if_game_related (env : Env) (question : String) : Bool :=
  pyIn "yes" (pyLower (call_gpt_4o_mini env (relatedness_prompt question)))

/-- The prompt of `preprocess_query` (a Python triple-quoted f-string,
hence the leading and trailing newline). -/
def rewrite_prompt (question : String) : String :=
  "\nPlease rewrite the following question by applying the following query rewriting techniques:\n\n1. Correct any spelling mistakes.\n2. Simplify the question to be more straightforward and easily understandable.\n3. Replace words with synonyms where appropriate to broaden the search results.\n4. Handle any negative queries correctly by rephrasing them to reflect the true intent.\n5. Paraphrase the question while maintaining its original meaning.\n\nOriginal Question: \"" ++ question ++ "\"\n\nRewritten Question:\n"

/-- `preprocess_query`: the helper's response, stripped once more.  Its
`except` branch (`return question`, the identity fallback the docstring
promises) is unreachable because `call_gpt_4o_mini` never raises: a failed
language-model call surfaces here as the sentinel string `"No"`. -/
def preprocess_query (env : Env) (question : String) : String :=
  pyStrip (call_gpt_4o_mini env (rewrite_prompt question))

/-- `search_weaviate`: the embed-and-query round trip, with every failure
caught and mapped to the empty result list. -/
def search_weaviate (question : String) (client : WeaviateClient) (k : Nat) : List GameRecord :=
  match client.query question k with
  | some games => games
  | none => []

/-- `save_searched_game_to_db`: insert a `SearchedGame` row unless
`game_id` is falsy (`None` or the empty string) or a row with this
`game_id` already exists. -/
def save_searched_game_to_db (session_db : List SearchedGame) (game_info : GameRecord) : List SearchedGame :=
  match game_info.gameId with
  | none => session_db
  | some game_id =>
    if game_id = "" then session_db
    else if (session_db.find? (fun g => g.game_id == game_id)).isSome then session_db
    else session_db ++ [{ game_id := game_id, game_name := game_info.gameName, subcategory := game_info.subcategory, level := game_info.level, category := game_info.category }]

/-- The prompt of `generate_answer_from_game_info` (a triple-quoted
f-string), grouped so that each serialized attribute line is a subterm. -/
def game_info_prompt (game_info : GameRecord) (question : String) : String :=
  let game_description := game_info.description.getD "No description available."
  let game_name := game_info.gameName.getD "Unknown Game"
  "\nYou are a game instructor assistant. Use the following game information to answer the user's question.\n\n"
    ++ ("Game Name: " ++ game_name) ++ "\n"
    ++ ("Description: " ++ game_description) ++ "\n"
    ++ ("Alternate Names: " ++ game_info.alternateNames.getD "N/A") ++ "\n"
    ++ ("Subcategory: " ++ game_info.subcategory.getD "N/A") ++ "\n"
    ++ ("Level: " ++ game_info.level.getD "N/A") ++ "\n"
    ++ ("Players Max: " ++ game_info.playersMax.getD "N/A") ++ "\n"
    ++ ("Age Range: " ++ game_info.ageRange.getD "N/A") ++ "\n"
    ++ ("Duration: " ++ game_info.duration.getD "N/A") ++ "\n"
    ++ ("Equipment Needed: " ++ game_info.equipmentNeeded.getD "N/A") ++ "\n"
    ++ ("Objective: " ++ game_info.objective.getD "N/A") ++ "\n"
    ++ ("Skills Developed: " ++ game_info.skillsDeveloped.getD "N/A") ++ "\n"
    ++ ("Setup Time: " ++ game_info.setupTime.getD "N/A") ++ "\n"
    ++ ("Place: " ++ game_info.place.getD "N/A") ++ "\n"
    ++ ("Physical Intensity Level: " ++ game_info.physicalIntensityLevel.getD "N/A") ++ "\n"
    ++ ("Educational Benefits: " ++ game_info.educationalBenefits.getD "N/A") ++ "\n"
    ++ ("Category: " ++ game_info.category.getD "N/A") ++ "\n"
    ++ "\nUser's Question: " ++ question ++ "\n\nAnswer:\n"

/-- The apology string of `generate_answer_from_game_info`'s `except`
branch. -/
def apology_message : String := "Sorry, I couldn't generate an answer at this time."

/-- `generate_answer_from_game_info`: the helper's response to the
serialized-game prompt.  Its `except` branch (returning
`apology_message`) is unreachable because `call_gpt_4o_mini` never
raises: a failed generation surfaces here as the sentinel `"No"`. -/
def generate_answer_from_game_info (env : Env) (game_info : GameRecord) (question : String) : String :=
  call_gpt_4o_mini env (game_info_prompt game_info question)

/-- The `answer` dictionary built for one search hit inside `get_answer`. -/
def mk_answer (env : Env) (preprocessed_question : String) (result : GameRecord) : Answer :=
  { game_name := result.gameName.getD "Unknown Game"
    answer := generate_answer_from_game_info env result preprocessed_question
    game_id := result.gameId
    subcategory := result.subcategory
    level := result.level
    category := result.category }

/-- The `for result in results` loop of `get_answer`: build an answer and
save the hit, in hit order, threading the session. -/
def process_results (env : Env) (preprocessed_question : String) : List GameRecord → List SearchedGame → List Answer × List SearchedGame
  | [], session_db => ([], session_db)
  | result :: rest, session_db =>
    let answer := mk_answer env preprocessed_question result
    let session_db' := save_searched_game_to_db session_db result
    let (answers, session_db'') := process_results env preprocessed_question rest session_db'
    (answer :: answers, session_db'')

/-- The fixed rejection message of the not-related outcome. -/
def not_related_message : String := "Your question does not appear to be related to games. Please ask a game-related question."

/-- The fixed message of the related-but-no-match outcome. -/
def no_match_message : String := "I couldn't find any games matching your question. Please try rephrasing or ask about another game."

/-- The outcome of one `get_answer` call: the returned dictionary, the
session rows after the call, and the collaborator calls made. -/
structure GetAnswerOutcome where
  result : GetAnswerResult
  db : List SearchedGame
  calls : List Event
deriving DecidableEq

/-- `get_answer`, the orchestrator.  `user_id` and `hybrid` are accepted,
as in the source, and never read. -/
def get_answer (env : Env) (question : String) (user_id : Nat) (session_db : List SearchedGame) (k : Nat) (hybrid : Bool) (weaviate_client : WeaviateClient) : GetAnswerOutcome :=
  let preprocessed_question := preprocess_query env question
  let is_related_original := check_if_game_related env question
  let is_related_rewritten := check_if_game_related env preprocessed_question
  let is_related := is_related_original || is_related_rewritten
  if !is_related then
    { result := { is_related := false, message := some not_related_message, answers := none, rewritten_question := preprocessed_question }
      db := session_db
      calls := [.rewriteCall question, .classifyCall question, .classifyCall preprocessed_question] }
  else
    let results := search_weaviate preprocessed_question weaviate_client k
    let calls := [.rewriteCall question, .classifyCall question, .classifyCall preprocessed_question, .searchCall preprocessed_question k]
    match results with
    | [] =>
      { result := { is_related := true, message := some no_match_message, answers := none, rewritten_question := preprocessed_question }
        db := session_db
        calls := calls }
    | result :: rest =>
      let processed := process_results env preprocessed_question (result :: rest) session_db
      { result := { is_related := true, message := none, answers := some processed.1, rewritten_question := preprocessed_question }
        db := processed.2
        calls := calls }

/-! ### String lemmas: stripping does not affect the `"yes"` test -/

/-- `Char.toNat` after `Char.ofNat` of a valid codepoint. -/
theorem toNat_ofNat_valid {n : Nat} (h : n.isValidChar) : (Char.ofNat n).toNat = n := by
  unfold Char.ofNat
  rw [dif_pos h]
  rfl

/-- A character with codepoint at least 65 is not whitespace. -/
theorem not_whitespace_of_ge (c : Char) (h : 65 ≤ c.toNat) : c.isWhitespace = false := by
  simp only [Char.isWhitespace, Bool.or_eq_false_iff, decide_eq_false_iff_not]
  refine ⟨⟨⟨?_, ?_⟩, ?_⟩, ?_⟩ <;> rintro rfl <;> exact absurd h (by decide)

/-- Lowercasing preserves whitespace-ness. -/
theorem isWhitespace_toLower (c : Char) : c.toLower.isWhitespace = c.isWhitespace := by
  by_cases h : 65 ≤ c.toNat ∧ c.toNat ≤ 90
  · have hl : c.toLower = Char.ofNat (c.toNat + 32) := by simp [Char.toLower, h.1, h.2]
    have hv : (c.toNat + 32).isValidChar := Or.inl (by omega)
    have ht : (Char.ofNat (c.toNat + 32)).toNat = c.toNat + 32 := toNat_ofNat_valid hv
    rw [hl, not_whitespace_of_ge _ (by omega), not_whitespace_of_ge _ h.1]
  · have hl : c.toLower = c := by simp [Char.toLower]; omega
    rw [hl]

/-- Dropping a block that wholly satisfies `p` commutes out of `dropWhile`. -/
theorem dropWhile_append_all {α : Type} {p : α → Bool} {s : List α} (h : ∀ a ∈ s, p a = true) (r : List α) : (s ++ r).dropWhile p = r.dropWhile p := by
  induction s with
  | nil => rfl
  | cons a s ih =>
    have ha : p a = true := h a (List.mem_cons_self a s)
    rw [List.cons_append, List.dropWhile_cons_of_pos ha]
    exact ih (fun b hb => h b (List.mem_cons_of_mem a hb))

/-- A nonempty pattern whose characters all fail `p` occurs in `l.dropWhile p`
exactly when it occurs in `l`. -/
theorem infix_dropWhile_iff {α : Type} [DecidableEq α] {p : α → Bool} {pat l : List α} (hne : pat ≠ []) (hpat : ∀ a ∈ pat, p a = false) : pat <:+: l.dropWhile p ↔ pat <:+: l := by
  constructor
  · intro h
    exact h.trans ( List.IsSuffix.isInfix (List.dropWhile_suffix p))
  · rintro ⟨s, t, hst⟩
    have hsl : s <+: l := by
      rw [← hst, List.append_assoc]
      exact ⟨pat ++ t, rfl⟩
    have htw := List.takeWhile_prefix (l := l) p
    rcases List.prefix_or_prefix_of_prefix hsl htw with hc | hc
    · have hs : ∀ a ∈ s, p a = true := by
        intro a ha
        have hmem : a ∈ l.takeWhile p := hc.subset ha
        have hall := List.all_takeWhile (l := l) (p := p)
        exact (List.all_eq_true.mp hall) a hmem
      have hd : l.dropWhile p = pat ++ t := by
        rw [← hst, List.append_assoc, dropWhile_append_all hs]
        cases pat with
        | nil => exact absurd rfl hne
        | cons c cs =>
          have hcc : p c = false := hpat c (List.mem_cons_self c cs)
          rw [List.cons_append, List.dropWhile_cons_of_neg (by simp [hcc])]
      rw [hd]
      exact ⟨[], t, rfl⟩
    · obtain ⟨s', rfl⟩ := hc
      have hl := List.takeWhile_append_dropWhile (p := p) (l := l)
      have hst' : l.takeWhile p ++ (s' ++ (pat ++ t)) = l.takeWhile p ++ l.dropWhile p := by
        rw [hl]
        simpa [List.append_assoc] using hst
      have hcancel := List.append_cancel_left hst'
      exact ⟨s', t, by rw [List.append_assoc]; exact hcancel⟩

/-- A nonempty whitespace-free pattern occurs in `stripList l` exactly when
it occurs in `l`. -/
theorem infix_stripList_iff {pat l : List Char} (hne : pat ≠ []) (hpat : ∀ a ∈ pat, a.isWhitespace = false) : pat <:+: stripList l ↔ pat <:+: l := by
  unfold stripList
  have hne' : pat.reverse ≠ [] := by simp [hne]
  have hpat' : ∀ a ∈ pat.reverse, a.isWhitespace = false := fun a ha => hpat a (List.mem_reverse.mp ha)
  calc pat <:+: ((l.dropWhile Char.isWhitespace).reverse.dropWhile Char.isWhitespace).reverse
      ↔ pat.reverse <:+: (l.dropWhile Char.isWhitespace).reverse.dropWhile Char.isWhitespace := by
        constructor
        · intro h
          have h2 := h.reverse
          rwa [List.reverse_reverse] at h2
        · intro h
          have h2 := h.reverse
          rwa [List.reverse_reverse] at h2
    _ ↔ pat.reverse <:+: (l.dropWhile Char.isWhitespace).reverse := infix_dropWhile_iff hne' hpat'
    _ ↔ pat <:+: l.dropWhile Char.isWhitespace := List.reverse_infix
    _ ↔ pat <:+: l := infix_dropWhile_iff hne hpat

/-- Stripping commutes with ASCII lowercasing. -/
theorem stripList_map_toLower (l : List Char) : stripList (l.map Char.toLower) = (stripList l).map Char.toLower := by
  unfold stripList
  have hws : (Char.isWhitespace ∘ Char.toLower) = Char.isWhitespace := by
    funext c
    exact isWhitespace_toLower c
  rw [List.dropWhile_map, hws, ← List.map_reverse, List.dropWhile_map, hws, ← List.map_reverse]

/-- The case-insensitive `"yes"` test is unaffected by `str.strip()`. -/
theorem pyIn_yes_lower_strip (r : String) : pyIn "yes" (pyLower (pyStrip r)) = pyIn "yes" (pyLower r) := by
  show decide ("yes".data <:+: (stripList r.data).map Char.toLower) = decide ("yes".data <:+: r.data.map Char.toLower)
  rw [← stripList_map_toLower]
  have h := @infix_stripList_iff "yes".data (r.data.map Char.toLower) (by decide) (by decide)
  exact decide_eq_decide.mpr h

/-- A string occurs in itself. -/
theorem pyIn_refl (pat : String) : pyIn pat pat = true :=
  decide_eq_true ⟨[], [], by simp⟩

/-- Occurrence survives appending on the right. -/
theorem pyIn_append_right (pat s t : String) (h : pyIn pat s = true) : pyIn pat (s ++ t) = true := by
  unfold pyIn at h ⊢
  rw [String.data_append]
  exact decide_eq_true ((of_decide_eq_true h).trans ⟨[], t.data, by simp⟩)

/-- Occurrence survives appending on the left. -/
theorem pyIn_append_left (pat s t : String) (h : pyIn pat t = true) : pyIn pat (s ++ t) = true := by
  unfold pyIn at h ⊢
  rw [String.data_append]
  exact decide_eq_true ((of_decide_eq_true h).trans ⟨s.data, [], by simp⟩)

/-! ### Concrete collaborators and records used as test inputs -/

/-- A `Game` object with every attribute missing. -/
def blank_game : GameRecord :=
  { gameId := none, gameName := none, alternateNames := none, subcategory := none
    level := none, description := none, playersMax := none, ageRange := none
    duration := none, equipmentNeeded := none, objective := none, skillsDeveloped := none
    setupTime := none, place := none, physicalIntensityLevel := none
    educationalBenefits := none, category := none }

/-- A concrete hit. -/
def chess_game : GameRecord :=
  { blank_game with
    gameId := some "G1"
    gameName := some "Chess"
    description := some "A strategy board game for two players." }

/-- A second concrete hit with a different id. -/
def tag_game : GameRecord :=
  { blank_game with
    gameId := some "G2"
    gameName := some "Tag"
    description := some "A classic outdoor chasing game." }

/-- A language model that always answers affirmatively. -/
def yes_env : Env := { llm := fun _ => some "Yes" }

/-- A language-model transport that always raises. -/
def down_env : Env := { llm := fun _ => none }

/-- A language model that raises exactly on the generation prompt for
`chess_game` and succeeds on every other prompt. -/
def gen_fail_env : Env :=
  { llm := fun p => if p = game_info_prompt chess_game "how to play" then none else some "You move pieces on a board." }

/-- A vector store whose round trip always raises. -/
def fail_client : WeaviateClient := { query := fun _ _ => none }

/-! ### The claims -/

/-- C6: `check_if_game_related` returns `true` exactly when the
language-model call succeeds and its response contains `"yes"`
case-insensitively; in every other case — other content, or a model or
transport failure (`env.llm _ = none`) — it returns `false` rather than
propagating. -/
theorem C6_check_related_yes_iff (env : Env) (question : String) :
    check_if_game_related env question = true ↔
      ∃ r, env.llm (relatedness_prompt question) = some r ∧ pyIn "yes" (pyLower r) = true := by
  unfold check_if_game_related call_gpt_4o_mini
  cases h : env.llm (relatedness_prompt question) with
  | none =>
    simp only [h]
    constructor
    · intro hy
      exact absurd hy (by decide)
    · rintro ⟨r, hr, _⟩
      exact absurd hr (by simp)
  | some r =>
    simp only [h, Option.some.injEq]
    rw [pyIn_yes_lower_strip]
    constructor
    · intro hy
      exact ⟨r, rfl, hy⟩
    · rintro ⟨r', hr', hy⟩
      rw [hr']
      exact hy

/-- C10: the result of `get_answer` does not depend on `user_id` or
`hybrid`: both parameters are accepted but never read. -/
theorem C10_get_answer_ignores_user_id_hybrid (env : Env) (question : String) (u1 u2 : Nat) (session_db : List SearchedGame) (k : Nat) (h1 h2 : Bool) (wc : WeaviateClient) :
    get_answer env question u1 session_db k h1 wc = get_answer env question u2 session_db k h2 wc := rfl

/-- C4 (the code, at the failing input): when the language-model call
underlying the rewrite fails, `preprocess_query` returns the sentinel
`"No"` produced by `call_gpt_4o_mini`, not the original text — the
identity-fallback `except` branch of `preprocess_query` is dead code. -/
theorem C4_preprocess_query_failure_eval :
    preprocess_query down_env "How do I play checkers?" = "No" ∧
    preprocess_query down_env "How do I play checkers?" ≠ "How do I play checkers?" := by
  constructor
  · rfl
  · decide

set_option maxRecDepth 8192 in
/-- C5 (the code, at the failing input): with two hits and the generation
call failing only for the first, composition does not abort early, but the
failed hit's answer text is the sentinel `"No"`, not the apology string of
the dead `except` branch. -/
theorem C5_generation_failure_eval :
    (process_results gen_fail_env "how to play" [chess_game, tag_game] []).1.map Answer.answer = ["No", "You move pieces on a board."] ∧
    generate_answer_from_game_info gen_fail_env chess_game "how to play" = "No" ∧
    generate_answer_from_game_info gen_fail_env chess_game "how to play" ≠ apology_message := by
  refine ⟨?_, ?_, by decide⟩
  · decide
  · decide

/-! ### Branch characterizations of `get_answer` -/

/-- `get_answer` when neither classification is related. -/
theorem get_answer_branch_not_related (env : Env) (question : String) (user_id : Nat) (session_db : List SearchedGame) (k : Nat) (hybrid : Bool) (wc : WeaviateClient)
    (h : (check_if_game_related env question || check_if_game_related env (preprocess_query env question)) = false) :
    get_answer env question user_id session_db k hybrid wc =
      { result := { is_related := false, message := some not_related_message, answers := none, rewritten_question := preprocess_query env question }
        db := session_db
        calls := [.rewriteCall question, .classifyCall question, .classifyCall (preprocess_query env question)] } := by
  simp [get_answer, h]

/-- `get_answer` when the request is related but the search yields no hit. -/
theorem get_answer_branch_no_match (env : Env) (question : String) (user_id : Nat) (session_db : List SearchedGame) (k : Nat) (hybrid : Bool) (wc : WeaviateClient)
    (h : (check_if_game_related env question || check_if_game_related env (preprocess_query env question)) = true)
    (hr : search_weaviate (preprocess_query env question) wc k = []) :
    get_answer env question user_id session_db k hybrid wc =
      { result := { is_related := true, message := some no_match_message, answers := none, rewritten_question := preprocess_query env question }
        db := session_db
        calls := [.rewriteCall question, .classifyCall question, .classifyCall (preprocess_query env question), .searchCall (preprocess_query env question) k] } := by
  simp [get_answer, h, hr]

/-- `get_answer` when the request is related and the search returns hits. -/
theorem get_answer_branch_hits (env : Env) (question : String) (user_id : Nat) (session_db : List SearchedGame) (k : Nat) (hybrid : Bool) (wc : WeaviateClient) (r : GameRecord) (rest : List GameRecord)
    (h : (check_if_game_related env question || check_if_game_related env (preprocess_query env question)) = true)
    (hr : search_weaviate (preprocess_query env question) wc k = r :: rest) :
    get_answer env question user_id session_db k hybrid wc =
      { result := { is_related := true, message := none
                    answers := some (process_results env (preprocess_query env question) (r :: rest) session_db).1
                    rewritten_question := preprocess_query env question }
        db := (process_results env (preprocess_query env question) (r :: rest) session_db).2
        calls := [.rewriteCall question, .classifyCall question, .classifyCall (preprocess_query env question), .searchCall (preprocess_query env question) k] } := by
  simp [get_answer, h, hr]

/-- The answers of the hit loop are the per-hit answers, in hit order. -/
theorem process_results_fst (env : Env) (pq : String) (rs : List GameRecord) (session_db : List SearchedGame) :
    (process_results env pq rs session_db).1 = rs.map (mk_answer env pq) := by
  induction rs generalizing session_db with
  | nil => rfl
  | cons r rest ih => simp [process_results, ih]

/-- C1: a request is related exactly when the classifier accepts the
original or the rewritten question (logical OR); when it accepts neither,
`get_answer` returns the not-related outcome with the fixed rejection
message and the rewritten question, leaves the session untouched, and
makes no vector-search call. -/
theorem C1_or_policy_and_reject (env : Env) (question : String) (user_id : Nat) (session_db : List SearchedGame) (k : Nat) (hybrid : Bool) (wc : WeaviateClient) :
    (get_answer env question user_id session_db k hybrid wc).result.is_related
      = (check_if_game_related env question || check_if_game_related env (preprocess_query env question))
    ∧ (check_if_game_related env question = false →
        check_if_game_related env (preprocess_query env question) = false →
        get_answer env question user_id session_db k hybrid wc =
          { result := { is_related := false, message := some not_related_message, answers := none, rewritten_question := preprocess_query env question }
            db := session_db
            calls := [.rewriteCall question, .classifyCall question, .classifyCall (preprocess_query env question)] }
        ∧ ∀ e ∈ (get_answer env question user_id session_db k hybrid wc).calls, e.isSearchCall = false) := by
  constructor
  · cases h : (check_if_game_related env question || check_if_game_related env (preprocess_query env question)) with
    | false => rw [get_answer_branch_not_related env question user_id session_db k hybrid wc h]
    | true =>
      cases hr : search_weaviate (preprocess_query env question) wc k with
      | nil => rw [get_answer_branch_no_match env question user_id session_db k hybrid wc h hr]
      | cons r rest => rw [get_answer_branch_hits env question user_id session_db k hybrid wc r rest h hr]
  · intro h1 h2
    have h : (check_if_game_related env question || check_if_game_related env (preprocess_query env question)) = false := by
      rw [h1, h2]
      rfl
    rw [get_answer_branch_not_related env question user_id session_db k hybrid wc h]
    refine ⟨rfl, ?_⟩
    intro e he
    fin_cases he <;> rfl

/-- C1 witness: with a language model that is down, both classifications
are false, and `get_answer` on a concrete question returns the
not-related outcome with no search call. -/
theorem C1_witness :
    get_answer down_env "what is the weather" 1 [] 1 false fail_client =
      { result := { is_related := false, message := some not_related_message, answers := none, rewritten_question := preprocess_query down_env "what is the weather" }
        db := []
        calls := [.rewriteCall "what is the weather", .classifyCall "what is the weather", .classifyCall (preprocess_query down_env "what is the weather")] }
    ∧ ∀ e ∈ (get_answer down_env "what is the weather" 1 [] 1 false fail_client).calls, e.isSearchCall = false :=
  (C1_or_policy_and_reject down_env "what is the weather" 1 [] 1 false fail_client).2 (by decide) (by decide)

/-- C3: the rewritten question is computed by exactly one rewrite call,
on the original question; the two classification calls are on the
original and on that same rewritten string, in that order; any search
call uses that same rewritten string; and the returned outcome carries it
as `rewritten_question`. -/
theorem C3_rewrite_once_and_used_consistently (env : Env) (question : String) (user_id : Nat) (session_db : List SearchedGame) (k : Nat) (hybrid : Bool) (wc : WeaviateClient) :
    (get_answer env question user_id session_db k hybrid wc).calls.filter Event.isRewriteCall = [.rewriteCall question]
    ∧ (get_answer env question user_id session_db k hybrid wc).calls.filter Event.isClassifyCall
        = [.classifyCall question, .classifyCall (preprocess_query env question)]
    ∧ ((get_answer env question user_id session_db k hybrid wc).calls.filter Event.isSearchCall = []
        ∨ (get_answer env question user_id session_db k hybrid wc).calls.filter Event.isSearchCall
            = [.searchCall (preprocess_query env question) k])
    ∧ (get_answer env question user_id session_db k hybrid wc).result.rewritten_question = preprocess_query env question := by
  cases h : (check_if_game_related env question || check_if_game_related env (preprocess_query env question)) with
  | false =>
    rw [get_answer_branch_not_related env question user_id session_db k hybrid wc h]
    exact ⟨rfl, rfl, Or.inl rfl, rfl⟩
  | true =>
    cases hr : search_weaviate (preprocess_query env question) wc k with
    | nil =>
      rw [get_answer_branch_no_match env question user_id session_db k hybrid wc h hr]
      exact ⟨rfl, rfl, Or.inr rfl, rfl⟩
    | cons r rest =>
      rw [get_answer_branch_hits env question user_id session_db k hybrid wc r rest h hr]
      exact ⟨rfl, rfl, Or.inr rfl, rfl⟩

/-- C7: when the embed-and-search round trip fails, `search_weaviate`
returns the empty sequence rather than raising, and `get_answer` for a
related question then returns the related-no-match outcome with the fixed
message — never the answers outcome. -/
theorem C7_search_failure_yields_no_match (env : Env) (question : String) (user_id : Nat) (session_db : List SearchedGame) (k : Nat) (hybrid : Bool) (wc : WeaviateClient)
    (hrel : (check_if_game_related env question || check_if_game_related env (preprocess_query env question)) = true)
    (hfail : wc.query (preprocess_query env question) k = none) :
    search_weaviate (preprocess_query env question) wc k = []
    ∧ get_answer env question user_id session_db k hybrid wc =
      { result := { is_related := true, message := some no_match_message, answers := none, rewritten_question := preprocess_query env question }
        db := session_db
        calls := [.rewriteCall question, .classifyCall question, .classifyCall (preprocess_query env question), .searchCall (preprocess_query env question) k] } := by
  have hs : search_weaviate (preprocess_query env question) wc k = [] := by
    simp [search_weaviate, hfail]
  exact ⟨hs, get_answer_branch_no_match env question user_id session_db k hybrid wc hrel hs⟩

/-- C7 witness: a concrete related question against a failing vector
store yields the no-match outcome. -/
theorem C7_witness :
    search_weaviate (preprocess_query yes_env "is chess fun") fail_client 3 = []
    ∧ get_answer yes_env "is chess fun" 7 [] 3 false fail_client =
      { result := { is_related := true, message := some no_match_message, answers := none, rewritten_question := preprocess_query yes_env "is chess fun" }
        db := []
        calls := [.rewriteCall "is chess fun", .classifyCall "is chess fun", .classifyCall (preprocess_query yes_env "is chess fun"), .searchCall (preprocess_query yes_env "is chess fun") 3] } :=
  C7_search_failure_yields_no_match yes_env "is chess fun" 7 [] 3 false fail_client (by decide) rfl

/-- A vector store that always returns the two concrete hits. -/
def two_hits_client : WeaviateClient := { query := fun _ _ => some [chess_game, tag_game] }

/-- C2: for a related question whose search returns a non-empty list of
`n ≤ k` records, `get_answer` returns the answers outcome with exactly
`n` entries whose `game_id`s are the `gameId`s of the search records, in
search order. -/
theorem C2_answers_match_hits (env : Env) (question : String) (user_id : Nat) (session_db : List SearchedGame) (k : Nat) (hybrid : Bool) (wc : WeaviateClient) (rs : List GameRecord)
    (hrel : (check_if_game_related env question || check_if_game_related env (preprocess_query env question)) = true)
    (hq : wc.query (preprocess_query env question) k = some rs)
    (hne : rs ≠ [])
    (hlen : rs.length ≤ k) :
    ∃ answers,
      (get_answer env question user_id session_db k hybrid wc).result =
        { is_related := true, message := none, answers := some answers, rewritten_question := preprocess_query env question }
      ∧ answers.length = rs.length
      ∧ answers.map Answer.game_id = rs.map GameRecord.gameId := by
  have hs : search_weaviate (preprocess_query env question) wc k = rs := by
    simp [search_weaviate, hq]
  cases rs with
  | nil => exact absurd rfl hne
  | cons r rest =>
    refine ⟨(process_results env (preprocess_query env question) (r :: rest) session_db).1, ?_, ?_, ?_⟩
    · rw [get_answer_branch_hits env question user_id session_db k hybrid wc r rest hrel hs]
    · rw [process_results_fst]
      exact List.length_map _ _
    · rw [process_results_fst, List.map_map]
      rfl

/-- C2 witness: a related question with two concrete hits and `k = 2`
yields two answers whose ids match the hits in order. -/
theorem C2_witness :
    ∃ answers,
      (get_answer yes_env "how to play chess" 5 [] 2 false two_hits_client).result =
        { is_related := true, message := none, answers := some answers, rewritten_question := preprocess_query yes_env "how to play chess" }
      ∧ answers.length = ([chess_game, tag_game] : List GameRecord).length
      ∧ answers.map Answer.game_id = ([chess_game, tag_game] : List GameRecord).map GameRecord.gameId :=
  C2_answers_match_hits yes_env "how to play chess" 5 [] 2 false two_hits_client [chess_game, tag_game] (by decide) rfl (by decide) (by decide)

/-- Number of stored rows bearing a given `game_id`. -/
def countId (session_db : List SearchedGame) (gid : String) : Nat :=
  session_db.countP (fun row => row.game_id == gid)

/-- One `save_searched_game_to_db` call preserves "at most one row per
`game_id`". -/
theorem countId_save_le (session_db : List SearchedGame) (g : GameRecord) (gid : String) (h : countId session_db gid ≤ 1) :
    countId (save_searched_game_to_db session_db g) gid ≤ 1 := by
  unfold countId at h ⊢
  unfold save_searched_game_to_db
  split
  · exact h
  · rename_i gi hgeq
    split
    · exact h
    · split
      · exact h
      · rename_i hne hf
        rw [List.countP_append]
        by_cases hgi : gi = gid
        · subst hgi
          have hnone : session_db.find? (fun row => row.game_id == gi) = none := by
            cases hff : session_db.find? (fun row => row.game_id == gi) with
            | none => rfl
            | some x => exact absurd (by rw [hff]; rfl) hf
          have hzero : session_db.countP (fun row => row.game_id == gi) = 0 := by
            rw [List.countP_eq_zero]
            exact List.find?_eq_none.mp hnone
          rw [hzero]
          simp [List.countP_cons]
        · have hzero : List.countP (fun row => row.game_id == gid) ([{ game_id := gi, game_name := g.gameName, subcategory := g.subcategory, level := g.level, category := g.category }] : List SearchedGame) = 0 := by
            simp [List.countP_cons, hgi]
          rw [hzero]
          omega

/-- C9: recording a searched game is idempotent keyed by `gameId`: from a
store with at most one row for `gid`, saving two records bearing `gid` —
or any number of them — leaves at most one row for `gid`; duplicate
notifications never create duplicate rows. -/
theorem C9_save_idempotent_by_game_id (session_db : List SearchedGame) (gid : String) (g1 g2 : GameRecord) (gs : List GameRecord)
    (h1 : g1.gameId = some gid) (h2 : g2.gameId = some gid) (hgs : ∀ g ∈ gs, g.gameId = some gid)
    (h : countId session_db gid ≤ 1) :
    countId (save_searched_game_to_db (save_searched_game_to_db session_db g1) g2) gid ≤ 1
    ∧ countId (gs.foldl save_searched_game_to_db session_db) gid ≤ 1 := by
  refine ⟨countId_save_le _ g2 gid (countId_save_le _ g1 gid h), ?_⟩
  clear h1 h2 hgs
  induction gs generalizing session_db with
  | nil => exact h
  | cons g gs ih => exact ih _ (countId_save_le _ g gid h)

/-- C9 witness: saving the same concrete record three times into an empty
store leaves at most one row for its id. -/
theorem C9_witness :
    countId (save_searched_game_to_db (save_searched_game_to_db [] chess_game) chess_game) "G1" ≤ 1
    ∧ countId (([chess_game, chess_game, chess_game] : List GameRecord).foldl save_searched_game_to_db []) "G1" ≤ 1 :=
  C9_save_idempotent_by_game_id [] "G1" chess_game chess_game [chess_game, chess_game, chess_game] rfl rfl (by decide) (by decide)

set_option maxRecDepth 100000 in
/-- C8 counterexample: on a record with every attribute missing, the
missing `description` is rendered as `"No description available."` — not
as the `"N/A"` placeholder the claim states — and a present `gameId` is
not serialized into the prompt at all. -/
theorem C8_counterexample :
    pyIn "Description: N/A" (game_info_prompt blank_game "How long does a round take") = false
    ∧ pyIn "Description: No description available." (game_info_prompt blank_game "How long does a round take") = true
    ∧ pyIn "GXYZ123" (game_info_prompt { blank_game with gameId := some "GXYZ123" } "How long does a round take") = false := by
  refine ⟨by decide, by decide, by decide⟩

set_option maxHeartbeats 1600000 in
/-- C8 amended: the prompt serializes every `GameRecord` attribute except
`gameId`; a missing attribute is never omitted but rendered with an
explicit placeholder — `"N/A"` for all attributes except `description`
(`"No description available."`) and `gameName` (`"Unknown Game"`). -/
theorem C8_amended_prompt_serialization (g : GameRecord) (question : String) :
    pyIn ("Game Name: " ++ g.gameName.getD "Unknown Game") (game_info_prompt g question) = true
    ∧ pyIn ("Description: " ++ g.description.getD "No description available.") (game_info_prompt g question) = true
    ∧ pyIn ("Alternate Names: " ++ g.alternateNames.getD "N/A") (game_info_prompt g question) = true
    ∧ pyIn ("Subcategory: " ++ g.subcategory.getD "N/A") (game_info_prompt g question) = true
    ∧ pyIn ("Level: " ++ g.level.getD "N/A") (game_info_prompt g question) = true
    ∧ pyIn ("Players Max: " ++ g.playersMax.getD "N/A") (game_info_prompt g question) = true
    ∧ pyIn ("Age Range: " ++ g.ageRange.getD "N/A") (game_info_prompt g question) = true
    ∧ pyIn ("Duration: " ++ g.duration.getD "N/A") (game_info_prompt g question) = true
    ∧ pyIn ("Equipment Needed: " ++ g.equipmentNeeded.getD "N/A") (game_info_prompt g question) = true
    ∧ pyIn ("Objective: " ++ g.objective.getD "N/A") (game_info_prompt g question) = true
    ∧ pyIn ("Skills Developed: " ++ g.skillsDeveloped.getD "N/A") (game_info_prompt g question) = true
    ∧ pyIn ("Setup Time: " ++ g.setupTime.getD "N/A") (game_info_prompt g question) = true
    ∧ pyIn ("Place: " ++ g.place.getD "N/A") (game_info_prompt g question) = true
    ∧ pyIn ("Physical Intensity Level: " ++ g.physicalIntensityLevel.getD "N/A") (game_info_prompt g question) = true
    ∧ pyIn ("Educational Benefits: " ++ g.educationalBenefits.getD "N/A") (game_info_prompt g question) = true
    ∧ pyIn ("Category: " ++ g.category.getD "N/A") (game_info_prompt g question) = true := by
  refine ⟨?_, ?_, ?_, ?_, ?_, ?_, ?_, ?_, ?_, ?_, ?_, ?_, ?_, ?_, ?_, ?_⟩ <;>
    (simp only [game_info_prompt]
     repeat
       first
         | exact pyIn_append_left _ _ _ (pyIn_refl _)
         | apply pyIn_append_right)
